import Mathlib

/-!
Verification development for the BigQuery CRUD repository
(`src/repositories/baseRepository.js`, `src/services/bigquery.js`,
`src/controllers/crudController.js`, `src/config/index.js`, `src/server.js`).

The JavaScript code is shallowly embedded: each repository operation becomes a
pure Lean function over an explicit warehouse state (a list of rows), the
statements it hands to the query executor are reified as `Statement` values,
and the process-wide BigQuery client singleton is modelled as explicit state
passing.  The write-side serialization (`JSON.stringify` of a payload and the
warehouse's `PARSE_JSON`, an inverse pair) is modelled abstractly, as is the
source text the client may return for a stored JSON column
(`JSStringVal.enc j` stands for the unique JSON source text of `j`, so
parsing it recovers `j`).  The read-side decode, however, dispatches on the
JS runtime type exactly as the source's `typeof` test does: every string is
handed to `JSON.parse` — an executable parser for arbitrary raw strings —
and a deserialized JSON `null` is a JS `null`, indistinguishable from SQL
NULL.  Numbers are modelled as integers throughout (`Json.num : Int`).
-/

/-- A JSON value, the domain of the `data` column and of request payloads. -/
inductive Json where
  | null : Json
  | bool (b : Bool) : Json
  | num (n : Int) : Json
  | str (s : String) : Json
  | arr (elems : List Json) : Json
  | obj (fields : List (String × Json)) : Json
  deriving Repr

/-- JavaScript truthiness of a JSON value (`null`, `false`, `0` and `""` are
falsy; arrays and objects are always truthy). -/
def Json.truthy : Json → Bool
  | .null => false
  | .bool b => b
  | .num n => n != 0
  | .str s => s != ""
  | .arr _ => true
  | .obj _ => true

/-- Whether a JSON value is a string, i.e. whether its deserialized JS value
satisfies `typeof v === 'string'`. -/
def Json.isString : Json → Bool
  | .str _ => true
  | _ => false

/-- The JS value of a deserialized JSON value, as an `Option`: JSON `null`
deserializes to JS `null` (`none`), every other value to itself. -/
def jsNullCollapse : Json → Option Json
  | Json.null => none
  | j => some j

/-- The opening-brace character of JSON object syntax. -/
def lbraceChar : Char := Char.ofNat 123

/-- The closing-brace character of JSON object syntax. -/
def rbraceChar : Char := Char.ofNat 125

/-- JSON whitespace. -/
def isJsonWs (c : Char) : Bool :=
  c = ' ' || c = '\t' || c = '\n' || c = '\r'

/-- Drop leading JSON whitespace. -/
def skipJsonWs : List Char → List Char
  | [] => []
  | c :: cs => if isJsonWs c then skipJsonWs cs else c :: cs

/-- Split the longest run of leading decimal digits off the input. -/
def takeDigits : List Char → List Char × List Char
  | [] => ([], [])
  | c :: cs =>
      if c.isDigit then
        let (ds, rest) := takeDigits cs
        (c :: ds, rest)
      else ([], c :: cs)

/-- The number denoted by a run of decimal digits. -/
def digitsToNat (ds : List Char) : Nat :=
  ds.foldl (fun n c => n * 10 + (c.toNat - 48)) 0

/-- Parse the contents of a JSON string literal after its opening quote,
handling the single-character escapes, up to and including the closing
quote. -/
def parseStringChars : List Char → Except String (String × List Char)
  | [] => Except.error "Unterminated string in JSON"
  | c :: cs =>
      if c = '"' then Except.ok ("", cs)
      else if c = '\\' then
        match cs with
        | [] => Except.error "Unterminated string in JSON"
        | e :: cs2 =>
            let esc : Except String Char :=
              if e = '"' then Except.ok '"'
              else if e = '\\' then Except.ok '\\'
              else if e = '/' then Except.ok '/'
              else if e = 'n' then Except.ok '\n'
              else if e = 't' then Except.ok '\t'
              else if e = 'r' then Except.ok '\r'
              else if e = 'b' then Except.ok (Char.ofNat 8)
              else if e = 'f' then Except.ok (Char.ofNat 12)
              else Except.error "Bad escaped character in JSON"
            match esc with
            | Except.error m => Except.error m
            | Except.ok ch =>
                match parseStringChars cs2 with
                | Except.error m => Except.error m
                | Except.ok (s, rest) => Except.ok (String.mk (ch :: s.data), rest)
      else
        match parseStringChars cs with
        | Except.error m => Except.error m
        | Except.ok (s, rest) => Except.ok (String.mk (c :: s.data), rest)

mutual

/-- Recursive-descent `JSON.parse` of one JSON value, returning it with the
remaining input.  Number literals are integer numerals (the `Json` domain
models numbers as integers).  The fuel argument bounds recursion and is in
surplus at every call site. -/
def parseJsonValue : Nat → List Char → Except String (Json × List Char)
  | 0, _ => Except.error "Unexpected end of JSON input"
  | fuel + 1, input =>
      match skipJsonWs input with
      | [] => Except.error "Unexpected end of JSON input"
      | c :: cs =>
          if c = 'n' then
            match cs with
            | 'u' :: 'l' :: 'l' :: rest => Except.ok (Json.null, rest)
            | _ => Except.error "Unexpected token in JSON"
          else if c = 't' then
            match cs with
            | 'r' :: 'u' :: 'e' :: rest => Except.ok (Json.bool true, rest)
            | _ => Except.error "Unexpected token in JSON"
          else if c = 'f' then
            match cs with
            | 'a' :: 'l' :: 's' :: 'e' :: rest => Except.ok (Json.bool false, rest)
            | _ => Except.error "Unexpected token in JSON"
          else if c = '"' then
            match parseStringChars cs with
            | Except.error m => Except.error m
            | Except.ok (s, rest) => Except.ok (Json.str s, rest)
          else if c = '-' then
            match takeDigits cs with
            | ([], _) => Except.error "Unexpected token in JSON"
            | ('0' :: _ :: _, _) => Except.error "Unexpected number in JSON"
            | (ds, rest) => Except.ok (Json.num (-(digitsToNat ds : Int)), rest)
          else if c.isDigit then
            match takeDigits (c :: cs) with
            | ('0' :: _ :: _, _) => Except.error "Unexpected number in JSON"
            | (ds, rest) => Except.ok (Json.num (digitsToNat ds), rest)
          else if c = '[' then
            match skipJsonWs cs with
            | ']' :: rest => Except.ok (Json.arr [], rest)
            | cs2 =>
                match parseJsonItems fuel cs2 with
                | Except.error m => Except.error m
                | Except.ok (vs, rest) => Except.ok (Json.arr vs, rest)
          else if c = lbraceChar then
            match skipJsonWs cs with
            | [] => Except.error "Unexpected end of JSON input"
            | d :: rest =>
                if d = rbraceChar then Except.ok (Json.obj [], rest)
                else
                  match parseJsonMembers fuel (d :: rest) with
                  | Except.error m => Except.error m
                  | Except.ok (ms, rest2) => Except.ok (Json.obj ms, rest2)
          else Except.error "Unexpected token in JSON"

/-- Parse the comma-separated items of a non-empty JSON array, consuming the
closing bracket. -/
def parseJsonItems : Nat → List Char → Except String (List Json × List Char)
  | 0, _ => Except.error "Unexpected end of JSON input"
  | fuel + 1, input =>
      match parseJsonValue fuel input with
      | Except.error m => Except.error m
      | Except.ok (v, rest) =>
          match skipJsonWs rest with
          | ',' :: rest2 =>
              match parseJsonItems fuel rest2 with
              | Except.error m => Except.error m
              | Except.ok (vs, rest3) => Except.ok (v :: vs, rest3)
          | ']' :: rest2 => Except.ok ([v], rest2)
          | _ => Except.error "Unexpected token in JSON"

/-- Parse the comma-separated members of a non-empty JSON object, consuming
the closing brace. -/
def parseJsonMembers :
    Nat → List Char → Except String (List (String × Json) × List Char)
  | 0, _ => Except.error "Unexpected end of JSON input"
  | fuel + 1, input =>
      match skipJsonWs input with
      | '"' :: cs =>
          match parseStringChars cs with
          | Except.error m => Except.error m
          | Except.ok (k, rest) =>
              match skipJsonWs rest with
              | ':' :: rest2 =>
                  match parseJsonValue fuel rest2 with
                  | Except.error m => Except.error m
                  | Except.ok (v, rest3) =>
                      match skipJsonWs rest3 with
                      | [] => Except.error "Unexpected end of JSON input"
                      | ',' :: rest4 =>
                          match parseJsonMembers fuel rest4 with
                          | Except.error m => Except.error m
                          | Except.ok (ms, rest5) => Except.ok ((k, v) :: ms, rest5)
                      | d :: rest4 =>
                          if d = rbraceChar then Except.ok ([(k, v)], rest4)
                          else Except.error "Unexpected token in JSON"
              | _ => Except.error "Unexpected token in JSON"
      | _ => Except.error "Unexpected token in JSON"

end

/-- `JSON.parse` on an arbitrary string: parse one value, demand only
whitespace afterwards, and hand back the resulting JS value (JSON `null`
becomes JS `null`).  Throws — `Except.error` — on anything that is not valid
JSON text. -/
def jsonParse (s : String) : Except String (Option Json) :=
  match parseJsonValue (2 * s.length + 2) s.data with
  | Except.error m => Except.error m
  | Except.ok (j, rest) =>
      match skipJsonWs rest with
      | [] => Except.ok (jsNullCollapse j)
      | _ => Except.error "Unexpected token after JSON value"

/-- The JavaScript value of the `value` field of a request body: it may be
`undefined` (key absent), `null`, or an integer. -/
inductive JSNum where
  | undef : JSNum
  | null : JSNum
  | int (n : Int) : JSNum
  deriving Repr, DecidableEq

/-- `config.bigquery` from `src/config/index.js`. -/
structure BigQueryConfig where
  dataset : String
  table : String
  location : String
  deriving Repr, DecidableEq

/-- `config.features` from `src/config/index.js`. -/
structure Features where
  enableMockMode : Bool
  deriving Repr, DecidableEq

/-- The application configuration object from `src/config/index.js`. -/
structure Config where
  projectId : String
  bigquery : BigQueryConfig
  features : Features
  deriving Repr, DecidableEq

/-- The configuration with every environment variable unset, i.e. the default
values hard-coded in `src/config/index.js`. -/
def defaultConfig : Config :=
  { projectId := "your-project-id"
    bigquery := { dataset := "test_dataset", table := "items", location := "US" }
    features := { enableMockMode := false } }

/-- `defaultConfig` with `ENABLE_MOCK_MODE=true`. -/
def mockConfig : Config :=
  { defaultConfig with features := { enableMockMode := true } }

/-- A value bound to a named query parameter.  `jsonText j` is the
`JSON.stringify` output for `j`, a string parameter (the SQL applies
`PARSE_JSON` to it). -/
inductive SqlParam where
  | null : SqlParam
  | str (s : String) : SqlParam
  | int (n : Int) : SqlParam
  | jsonText (j : Json) : SqlParam
  deriving Repr

/-- A parameterized statement as handed to `bigqueryService.executeQuery`:
SQL text, named parameters, and the optional `types` map (JS `null` when
omitted). -/
structure Statement where
  query : String
  params : List (String × SqlParam)
  types : Option (List (String × String))
  deriving Repr

/-- The options object built by `executeQuery` in `src/services/bigquery.js`
and passed to `client.query`: `{ query, params, location }`, plus `types`
when provided. -/
structure QueryOptions where
  query : String
  params : List (String × SqlParam)
  location : String
  types : Option (List (String × String))
  deriving Repr

/-- The BigQuery client handle built by `new BigQuery({ projectId, location })`.
The `handle` field is a creation counter so that distinct instantiations are
distinguishable. -/
structure Client where
  handle : Nat
  projectId : String
  location : String
  deriving Repr, DecidableEq

/-- The module-level state of `src/services/bigquery.js`: the
`bigqueryClient` singleton variable (initially `null`) together with the
counter supplying fresh handles. -/
structure ClientState where
  client : Option Client
  nextHandle : Nat
  deriving Repr, DecidableEq

/-- The state at module load: `let bigqueryClient = null`. -/
def initialClientState : ClientState := { client := none, nextHandle := 0 }

/-- `getClient` from `src/services/bigquery.js`: create the client on first
use, return the stored instance afterwards. -/
def getClient (cfg : Config) (cs : ClientState) : ClientState × Client :=
  match cs.client with
  | some c => (cs, c)
  | none =>
      let c : Client :=
        { handle := cs.nextHandle
          projectId := cfg.projectId
          location := cfg.bigquery.location }
      ({ client := some c, nextHandle := cs.nextHandle + 1 }, c)

/-- Run `n` successive `getClient` calls, collecting the returned handles. -/
def clientCalls (cfg : Config) : ClientState → Nat → ClientState × List Client
  | cs, 0 => (cs, [])
  | cs, n + 1 =>
      let (cs1, c) := getClient cfg cs
      let (cs2, rest) := clientCalls cfg cs1 n
      (cs2, c :: rest)

/-- `executeQuery` from `src/services/bigquery.js`: obtain the (singleton)
client, build the options object — `types` is attached only when provided —
and issue `client.query(options)`.  The returned triple records the client
state after the call, the client that received the query, and the options it
received. -/
def clientExecute (cfg : Config) (cs : ClientState) (stmt : Statement) :
    ClientState × Client × QueryOptions :=
  let (cs1, client) := getClient cfg cs
  let options : QueryOptions :=
    { query := stmt.query
      params := stmt.params
      location := cfg.bigquery.location
      types := stmt.types }
  (cs1, client, options)

/-- A stored row of the `items` table.  The `data` column is BigQuery-`JSON`
typed: `none` is SQL NULL. -/
structure Row where
  id : String
  name : String
  value : Option Int
  data : Option Json
  created_at : String
  updated_at : String
  deriving Repr

/-- The warehouse table contents. -/
abbrev DB := List Row

/-- A JS string surfacing the JSON column: either the JSON source text of a
stored value, as produced by the client's serialization (modelled
abstractly: `enc j` stands for the unique source text of `j`), or a
deserialized JSON string payload, which is just the payload string itself. -/
inductive JSStringVal where
  | enc (j : Json) : JSStringVal
  | raw (s : String) : JSStringVal
  deriving Repr

/-- The JS value of the `data` column of a result row as the repository sees
it: JS `null` (SQL NULL, or a deserialized JSON `null`), a JS string, or a
deserialized non-string value.  This is what `typeof` inspects. -/
inductive DataCell where
  | null : DataCell
  | str (sv : JSStringVal) : DataCell
  | value (j : Json) : DataCell
  deriving Repr

/-- A result row as returned by the client to the repository. -/
structure ClientRow where
  id : String
  name : String
  value : Option Int
  data : DataCell
  created_at : String
  updated_at : String
  deriving Repr

/-- How the client surfaces a stored row.  `rep = true` models the client
returning the JSON column as its encoded source text; `rep = false` models
the client deserializing it, so a stored JSON string arrives as a plain JS
string and a stored JSON `null` arrives as JS `null`, indistinguishable from
SQL NULL. -/
def presentRow (rep : Bool) (r : Row) : ClientRow :=
  { id := r.id
    name := r.name
    value := r.value
    data :=
      match r.data with
      | none => DataCell.null
      | some j =>
          if rep then DataCell.str (JSStringVal.enc j)
          else
            match j with
            | Json.null => DataCell.null
            | Json.str s => DataCell.str (JSStringVal.raw s)
            | _ => DataCell.value j
    created_at := r.created_at
    updated_at := r.updated_at }

/-- `JSON.parse` applied to a JS string from the `data` column: the encoded
source text of `j` parses back to `j` (as a JS value, so a JSON `null` text
yields JS `null`); a raw payload string is arbitrary text and is parsed by
the executable parser, which may throw. -/
def jsParseString : JSStringVal → Except String (Option Json)
  | JSStringVal.enc j => Except.ok (jsNullCollapse j)
  | JSStringVal.raw s => jsonParse s

/-- The defensive decode applied to each row's `data` column in `findAll` and
`findById`: `typeof row.data === 'string' ? JSON.parse(row.data) : row.data`.
Dispatch is on the JS runtime type: every string — encoded source text or a
deserialized string payload alike — is handed to `JSON.parse` (which may
throw); any non-string value, including `null`, is passed through
unchanged. -/
def decodeDataCell : DataCell → Except String (Option Json)
  | DataCell.null => Except.ok none
  | DataCell.value j => Except.ok (some j)
  | DataCell.str sv => jsParseString sv

/-- A domain record as returned by the repository
(`{ ...row, data: typeof row.data === 'string' ? JSON.parse(row.data) : row.data }`). -/
structure ItemRecord where
  id : String
  name : String
  value : Option Int
  data : Option Json
  created_at : String
  updated_at : String
  deriving Repr

/-- Row mapping shared by `findAll` and `findById`; a `JSON.parse` failure in
the decode propagates as a thrown error. -/
def mapClientRow (r : ClientRow) : Except String ItemRecord :=
  match decodeDataCell r.data with
  | Except.error m => Except.error m
  | Except.ok d =>
      Except.ok
        { id := r.id
          name := r.name
          value := r.value
          data := d
          created_at := r.created_at
          updated_at := r.updated_at }

/-- `rows.map(...)` with a callback that may throw: rows are decoded left to
right and the first failure aborts the whole read. -/
def decodeRows : List ClientRow → Except String (List ItemRecord)
  | [] => Except.ok []
  | r :: rs =>
      match mapClientRow r with
      | Except.error m => Except.error m
      | Except.ok rec =>
          match decodeRows rs with
          | Except.error m => Except.error m
          | Except.ok recs => Except.ok (rec :: recs)

/-- The request body of `create`: `name` (required by the caller layer),
`value` (possibly `undefined` or `null`), `data` (`none` = key absent; JS
`null` is `some Json.null`). -/
structure CreateInput where
  name : String
  value : JSNum
  data : Option Json
  deriving Repr

/-- The `update` patch `{ name?, value?, data? }`; `none` / `JSNum.undef`
model an `undefined` field (key absent from the body). -/
structure UpdatePatch where
  name : Option String
  value : JSNum
  data : Option Json
  deriving Repr

/-- The result of one repository operation: its return value, the warehouse
state afterwards, and the statements handed to `executeQuery` (in order). -/
structure RepoResult (α : Type) where
  res : α
  db : DB
  trace : List Statement
  deriving Repr

/-- `fullTableName` from `baseRepository.js`:
`` `${config.projectId}.${datasetName}.${tableName}` ``. -/
def fullTableName (cfg : Config) : String :=
  "`" ++ cfg.projectId ++ "." ++ cfg.bigquery.dataset ++ "." ++ cfg.bigquery.table ++ "`"

/-- The `value` column written by `create`:
`data.value !== undefined && data.value !== null ? data.value : null`. -/
def normalizeValue : JSNum → Option Int
  | JSNum.int n => some n
  | _ => none

/-- The `data` column written by `create`:
`data.data ? JSON.stringify(data.data) : null`, then `PARSE_JSON(@data)` in
the INSERT recovers the value.  A falsy payload (and an absent one) is stored
as SQL NULL. -/
def createStoredData (input : CreateInput) : Option Json :=
  match input.data with
  | some j => if j.truthy then some j else none
  | none => none

/-- The SQL text of the INSERT issued by `create`. -/
def createQuery (cfg : Config) : String :=
  "\n        INSERT INTO " ++ fullTableName cfg ++
  " (id, name, value, data, created_at, updated_at)\n        VALUES (@id, @name, @value, PARSE_JSON(@data), @created_at, @updated_at)\n      "

/-- The `types` map of `create` (always supplied: required for the nullable
fields when their value is null). -/
def createTypes : List (String × String) :=
  [("id", "STRING"), ("name", "STRING"), ("value", "INT64"),
   ("data", "STRING"), ("created_at", "STRING"), ("updated_at", "STRING")]

/-- The statement `create` hands to `executeQuery`. -/
def createStatement (cfg : Config) (input : CreateInput) (i now : String) : Statement :=
  { query := createQuery cfg
    params :=
      [("id", SqlParam.str i),
       ("name", SqlParam.str input.name),
       ("value", match normalizeValue input.value with
                 | some n => SqlParam.int n
                 | none => SqlParam.null),
       ("data", match createStoredData input with
                | some j => SqlParam.jsonText j
                | none => SqlParam.null),
       ("created_at", SqlParam.str now),
       ("updated_at", SqlParam.str now)]
    types := some createTypes }

/-- `create` from `baseRepository.js`.  `i` is the generated `uuidv4()` and
`now` the `new Date().toISOString()` timestamp, both passed explicitly.  The
INSERT appends one row; the returned record is composed from the input plus
generated fields without re-reading (`{ ...record, data: data.data || null }`). -/
def repoCreate (cfg : Config) (db : DB) (input : CreateInput) (i now : String) :
    RepoResult ItemRecord :=
  let row : Row :=
    { id := i
      name := input.name
      value := normalizeValue input.value
      data := createStoredData input
      created_at := now
      updated_at := now }
  { res :=
      { id := i
        name := input.name
        value := normalizeValue input.value
        data :=
          match input.data with
          | some j => if j.truthy then some j else none
          | none => none
        created_at := now
        updated_at := now }
    db := db ++ [row]
    trace := [createStatement cfg input i now] }

/-- The SQL text of the SELECT issued by `findById`. -/
def findByIdQuery (cfg : Config) : String :=
  "\n        SELECT id, name, value, data, created_at, updated_at\n        FROM " ++
  fullTableName cfg ++ "\n        WHERE id = @id\n        LIMIT 1\n      "

/-- `findById` from `baseRepository.js`: SELECT the row whose `id` matches
(`LIMIT 1`), return `null` when no row comes back, otherwise the first row
with its `data` column defensively decoded (a decode throw propagates). -/
def repoFindById (cfg : Config) (rep : Bool) (db : DB) (i : String) :
    RepoResult (Except String (Option ItemRecord)) :=
  let stmt : Statement :=
    { query := findByIdQuery cfg, params := [("id", SqlParam.str i)], types := none }
  let rows := (db.filter (fun r => r.id == i)).take 1
  { res :=
      match rows.map (presentRow rep) with
      | [] => Except.ok none
      | row :: _ =>
          match mapClientRow row with
          | Except.error m => Except.error m
          | Except.ok rec => Except.ok (some rec)
    db := db
    trace := [stmt] }

/-- The SQL text of the SELECT issued by `findAll`; the caller-supplied
`orderBy` is concatenated into the ORDER BY clause. -/
def findAllQuery (cfg : Config) (orderBy : String) : String :=
  "\n        SELECT id, name, value, data, created_at, updated_at\n        FROM " ++
  fullTableName cfg ++ "\n        ORDER BY " ++ orderBy ++
  "\n        LIMIT @limit OFFSET @offset\n      "

/-- `findAll` from `baseRepository.js`.  The ORDER BY clause is free text, so
its semantics is an opaque reordering `sortFn` of the table; `LIMIT @limit
OFFSET @offset` then drops `offset` rows and takes `limit`.  Every returned
row gets the defensive `data` decode. -/
def repoFindAll (cfg : Config) (rep : Bool) (sortFn : DB → DB) (db : DB)
    (limit offset : Nat) (orderBy : String) :
    RepoResult (Except String (List ItemRecord)) :=
  let stmt : Statement :=
    { query := findAllQuery cfg orderBy
      params := [("limit", SqlParam.int limit), ("offset", SqlParam.int offset)]
      types := none }
  let rows := ((sortFn db).drop offset).take limit
  { res := decodeRows (rows.map (presentRow rep))
    db := db
    trace := [stmt] }

/-- The dynamically built parts of the UPDATE statement. -/
structure UpdateParts where
  setClauses : List String
  params : List (String × SqlParam)
  types : List (String × String)
  deriving Repr

/-- The dynamic statement construction of `update`: start from
`updated_at = @updated_at` (with `id` and `updated_at` parameters and their
types), then push a SET clause, parameter and type for each field of the
patch that is not `undefined`. -/
def buildUpdate (i : String) (patch : UpdatePatch) (now : String) : UpdateParts :=
  let parts : UpdateParts :=
    { setClauses := ["updated_at = @updated_at"]
      params := [("id", SqlParam.str i), ("updated_at", SqlParam.str now)]
      types := [("id", "STRING"), ("updated_at", "STRING")] }
  let parts :=
    match patch.name with
    | some s =>
        { setClauses := parts.setClauses ++ ["name = @name"]
          params := parts.params ++ [("name", SqlParam.str s)]
          types := parts.types ++ [("name", "STRING")] }
    | none => parts
  let parts :=
    match patch.value with
    | JSNum.undef => parts
    | JSNum.null =>
        { setClauses := parts.setClauses ++ ["value = @value"]
          params := parts.params ++ [("value", SqlParam.null)]
          types := parts.types ++ [("value", "INT64")] }
    | JSNum.int n =>
        { setClauses := parts.setClauses ++ ["value = @value"]
          params := parts.params ++ [("value", SqlParam.int n)]
          types := parts.types ++ [("value", "INT64")] }
  match patch.data with
  | some j =>
      { setClauses := parts.setClauses ++ ["data = PARSE_JSON(@data)"]
        params := parts.params ++ [("data", SqlParam.jsonText j)]
        types := parts.types ++ [("data", "STRING")] }
  | none => parts

/-- The SQL text of the UPDATE: `SET` of the joined clauses, filtered by id. -/
def updateQuery (cfg : Config) (setClauses : List String) : String :=
  "\n        UPDATE " ++ fullTableName cfg ++ "\n        SET " ++
  String.intercalate ", " setClauses ++ "\n        WHERE id = @id\n      "

/-- The statement `update` hands to `executeQuery`. -/
def updateStatement (cfg : Config) (i : String) (patch : UpdatePatch) (now : String) :
    Statement :=
  let parts := buildUpdate i patch now
  { query := updateQuery cfg parts.setClauses
    params := parts.params
    types := some parts.types }

/-- The effect of the generated UPDATE statement on one stored row: rows whose
`id` matches receive exactly the SET clauses that were built — each present
patch field plus `updated_at` — and every other row is untouched. -/
def applyUpdateRow (i : String) (patch : UpdatePatch) (now : String) (r : Row) : Row :=
  if r.id == i then
    { r with
      name := match patch.name with | some s => s | none => r.name
      value :=
        match patch.value with
        | JSNum.undef => r.value
        | JSNum.null => none
        | JSNum.int n => some n
      data := match patch.data with | some j => some j | none => r.data
      updated_at := now }
  else r

/-- `update` from `baseRepository.js`: build the dynamic UPDATE, execute it,
then re-read the row via `findById` and return that fresh snapshot. -/
def repoUpdate (cfg : Config) (rep : Bool) (db : DB) (i : String)
    (patch : UpdatePatch) (now : String) :
    RepoResult (Except String (Option ItemRecord)) :=
  let stmt := updateStatement cfg i patch now
  let db2 := db.map (applyUpdateRow i patch now)
  let fb := repoFindById cfg rep db2 i
  { res := fb.res, db := fb.db, trace := stmt :: fb.trace }

/-- The SQL text of the DELETE issued by `delete`. -/
def deleteQuery (cfg : Config) : String :=
  "\n        DELETE FROM " ++ fullTableName cfg ++ "\n        WHERE id = @id\n      "

/-- `delete` from `baseRepository.js`: issue the row-matching DELETE and
return `true` unconditionally once it completes. -/
def repoDelete (cfg : Config) (db : DB) (i : String) : RepoResult Bool :=
  let stmt : Statement :=
    { query := deleteQuery cfg, params := [("id", SqlParam.str i)], types := none }
  { res := true
    db := db.filter (fun r => !(r.id == i))
    trace := [stmt] }

/-- The SQL text of the COUNT issued by `count`. -/
def countQuery (cfg : Config) : String :=
  "\n        SELECT COUNT(*) as total\n        FROM " ++ fullTableName cfg ++ "\n      "

/-- `count` from `baseRepository.js`: full-table aggregate. -/
def repoCount (cfg : Config) (db : DB) : RepoResult Nat :=
  let stmt : Statement := { query := countQuery cfg, params := [], types := none }
  { res := db.length, db := db, trace := [stmt] }

/-- One column of the table schema passed to `table.create` in
`ensureTableExists`. -/
structure SchemaField where
  name : String
  type : String
  mode : String
  deriving Repr, DecidableEq

/-- The fixed six-column schema from `ensureTableExists` in
`src/services/bigquery.js`. -/
def itemsTableSchema : List SchemaField :=
  [{ name := "id", type := "STRING", mode := "REQUIRED" },
   { name := "name", type := "STRING", mode := "REQUIRED" },
   { name := "value", type := "INT64", mode := "NULLABLE" },
   { name := "data", type := "JSON", mode := "NULLABLE" },
   { name := "created_at", type := "TIMESTAMP", mode := "REQUIRED" },
   { name := "updated_at", type := "TIMESTAMP", mode := "REQUIRED" }]

/-- The warehouse metadata the provisioner inspects: whether the configured
dataset and table exist. -/
structure WarehouseMeta where
  datasetExists : Bool
  tableExists : Bool
  deriving Repr, DecidableEq

/-- A schema-object creation issued by the provisioner. -/
inductive ProvisionAction where
  | createDataset : ProvisionAction
  | createTable (schema : List SchemaField) : ProvisionAction
  deriving Repr, DecidableEq

/-- `ensureTableExists` from `src/services/bigquery.js`: check the dataset and
create it if absent, then check the table and create it with the fixed schema
if absent.  Returns the metadata afterwards and the creations performed. -/
def ensureTableExists (m : WarehouseMeta) : WarehouseMeta × List ProvisionAction :=
  let (m1, acts1) :=
    if m.datasetExists then (m, ([] : List ProvisionAction))
    else ({ m with datasetExists := true }, [ProvisionAction.createDataset])
  let (m2, acts2) :=
    if m1.tableExists then (m1, ([] : List ProvisionAction))
    else ({ m1 with tableExists := true }, [ProvisionAction.createTable itemsTableSchema])
  (m2, acts1 ++ acts2)

/-- The outcome of awaiting `ensureTableExists()` inside `startServer`'s
`try`: either it resolved, or it rejected with an error message. -/
inductive ProvisionOutcome where
  | ok (m : WarehouseMeta) (acts : List ProvisionAction) : ProvisionOutcome
  | failed (msg : String) : ProvisionOutcome
  deriving Repr, DecidableEq

/-- What `startServer` did: whether `app.listen` was reached, and the warnings
logged on the way. -/
structure StartResult where
  listening : Bool
  port : Nat
  warnings : List String
  deriving Repr, DecidableEq

/-- `startServer` from `src/server.js`: await the provisioner inside a
`try`; on rejection log the warnings and fall through; in every case call
`app.listen(PORT)`. -/
def startServer (outcome : ProvisionOutcome) (port : Nat) : StartResult :=
  match outcome with
  | ProvisionOutcome.ok _ _ => { listening := true, port := port, warnings := [] }
  | ProvisionOutcome.failed msg =>
      { listening := true
        port := port
        warnings :=
          ["BigQuery initialization warning: " ++ msg,
           "Continuing anyway - tables may need manual creation or mock mode enabled."] }

/-- The response envelope written by `sendResponse` in
`src/controllers/crudController.js` (together with the HTTP status it was
sent with). -/
structure ApiResponse where
  status : Nat
  success : Bool
  message : Option String
  payload : Option ItemRecord
  deriving Repr

/-- `sendResponse`: `success` is `status >= 200 && status < 300`; `message`
and `data` are attached when given. -/
def sendResponse (status : Nat) (payload : Option ItemRecord)
    (message : Option String) : ApiResponse :=
  { status := status
    success := decide (200 ≤ status) && decide (status < 300)
    message := message
    payload := payload }

/-- The global error handler in `src/app.js`, reached when a handler's
promise rejects (`asyncHandler` forwards the error): status 500 with the
error's message. -/
def errorResponse (msg : String) : ApiResponse :=
  { status := 500, success := false, message := some msg, payload := none }

/-- `controller.findById`: look the row up; 404 `Item not found` when absent,
200 with the record otherwise; a repository throw becomes a 500 via the
global error handler. -/
def ctrlFindById (cfg : Config) (rep : Bool) (db : DB) (i : String) :
    DB × ApiResponse :=
  let r := repoFindById cfg rep db i
  match r.res with
  | Except.error m => (r.db, errorResponse m)
  | Except.ok none => (r.db, sendResponse 404 none (some "Item not found"))
  | Except.ok (some item) => (r.db, sendResponse 200 (some item) none)

/-- `controller.update`: check existence via `repository.findById`; 404
without touching the store when absent, otherwise run `repository.update`
and answer 200 with the fresh snapshot; a repository throw becomes a 500. -/
def ctrlUpdate (cfg : Config) (rep : Bool) (db : DB) (i : String)
    (body : UpdatePatch) (now : String) : DB × ApiResponse :=
  let ex := repoFindById cfg rep db i
  match ex.res with
  | Except.error m => (ex.db, errorResponse m)
  | Except.ok none => (ex.db, sendResponse 404 none (some "Item not found"))
  | Except.ok (some _) =>
      let u := repoUpdate cfg rep ex.db i body now
      match u.res with
      | Except.error m => (u.db, errorResponse m)
      | Except.ok item => (u.db, sendResponse 200 item (some "Item updated successfully"))

/-- `controller.delete`: check existence via `repository.findById`; 404
without touching the store when absent, otherwise run `repository.delete`
and answer 200; a repository throw becomes a 500. -/
def ctrlDelete (cfg : Config) (rep : Bool) (db : DB) (i : String) :
    DB × ApiResponse :=
  let ex := repoFindById cfg rep db i
  match ex.res with
  | Except.error m => (ex.db, errorResponse m)
  | Except.ok none => (ex.db, sendResponse 404 none (some "Item not found"))
  | Except.ok (some _) =>
      let d := repoDelete cfg ex.db i
      (d.db, sendResponse 200 none (some "Item deleted successfully"))

/-- Any `getClient` call made when a client is already stored returns the
stored client and leaves the module state unchanged. -/
theorem getClient_of_some (cfg : Config) (cs : ClientState) (c : Client)
    (h : cs.client = some c) : getClient cfg cs = (cs, c) := by
  unfold getClient
  rw [h]

/-- From a state that already stores a client, every further `getClient` call
returns that same client and the state never changes. -/
theorem clientCalls_of_some (cfg : Config) (c : Client) :
    ∀ (n : Nat) (cs : ClientState), cs.client = some c →
      clientCalls cfg cs n = (cs, List.replicate n c) := by
  intro n
  induction n with
  | zero => intro cs _; rfl
  | succ k ih =>
      intro cs h
      simp only [clientCalls, getClient_of_some cfg cs c h, ih cs h,
        List.replicate]

/-- Claim C4: for every id, once the DELETE statement completes, the
repository's `delete` returns `true` — whatever the table contents, hence
regardless of whether any row matched the id. -/
theorem delete_returns_true_unconditionally (cfg : Config) (db : DB) (i : String) :
    (repoDelete cfg db i).res = true ∧ (repoDelete cfg db i).trace.length = 1 :=
  ⟨rfl, rfl⟩

/-- Claim C3: with the mock-mode flag active, `create` still hands its INSERT
to `executeQuery`, and `executeQuery` still instantiates the real BigQuery
client and passes the statement to it — the flag is never consulted on the
data path. -/
theorem mock_mode_still_queries_warehouse :
    mockConfig.features.enableMockMode = true
    ∧ (repoCreate mockConfig [] ⟨"test", JSNum.undef, none⟩ "id-1" "t0").trace ≠ []
    ∧ (clientExecute mockConfig initialClientState
        ((repoCreate mockConfig [] ⟨"test", JSNum.undef, none⟩ "id-1" "t0").trace.headD
          ⟨"", [], none⟩)).2.2.query = createQuery mockConfig
    ∧ (clientExecute mockConfig initialClientState
        ((repoCreate mockConfig [] ⟨"test", JSNum.undef, none⟩ "id-1" "t0").trace.headD
          ⟨"", [], none⟩)).2.1
      = { handle := 0, projectId := "your-project-id", location := "US" } := by
  refine ⟨rfl, ?_, rfl, rfl⟩
  simp [repoCreate]

/-- Claim C8: the provisioner is idempotent — a second run performs no
creations and changes nothing, and it only creates the dataset or table when
absent — and a provisioning failure is non-fatal: `startServer` reaches
`app.listen` for every provisioning outcome. -/
theorem provisioning_idempotent_and_nonfatal (m : WarehouseMeta)
    (outcome : ProvisionOutcome) (port : Nat) :
    ensureTableExists (ensureTableExists m).1 = ((ensureTableExists m).1, [])
    ∧ (ensureTableExists m).1.datasetExists = true
    ∧ (ensureTableExists m).1.tableExists = true
    ∧ (m.datasetExists = true → ProvisionAction.createDataset ∉ (ensureTableExists m).2)
    ∧ (m.tableExists = true →
        ProvisionAction.createTable itemsTableSchema ∉ (ensureTableExists m).2)
    ∧ (startServer outcome port).listening = true := by
  obtain ⟨d, t⟩ := m
  cases d <;> cases t <;> cases outcome <;> simp [ensureTableExists, startServer]

/-- Witness for C8 at a concrete metadata state and a failing outcome. -/
theorem provisioning_idempotent_and_nonfatal_witness :
    ensureTableExists (ensureTableExists ⟨true, true⟩).1
      = ((ensureTableExists ⟨true, true⟩).1, [])
    ∧ ProvisionAction.createDataset ∉ (ensureTableExists ⟨true, true⟩).2
    ∧ ProvisionAction.createTable itemsTableSchema ∉ (ensureTableExists ⟨true, true⟩).2
    ∧ (startServer (ProvisionOutcome.failed "permission denied") 8080).listening = true := by
  have h := provisioning_idempotent_and_nonfatal ⟨true, true⟩
    (ProvisionOutcome.failed "permission denied") 8080
  exact ⟨h.1, h.2.2.2.1 rfl, h.2.2.2.2.1 rfl, h.2.2.2.2.2⟩

/-- Claim C9: the query executor holds at most one client handle per process.
Starting from module load, `n + 1` successive `getClient` calls all return
the client created by the first call, which stays stored (never torn down);
a call made while a client is stored returns it with the state unchanged; and
`executeQuery` routes its statement through that same stored client without
touching the state. -/
theorem client_singleton_lazy (cfg : Config) (n : Nat) (cs : ClientState)
    (c : Client) (stmt : Statement) (h : cs.client = some c) :
    (clientCalls cfg initialClientState (n + 1)).2
      = List.replicate (n + 1) (getClient cfg initialClientState).2
    ∧ (clientCalls cfg initialClientState (n + 1)).1.client
      = some (getClient cfg initialClientState).2
    ∧ getClient cfg cs = (cs, c)
    ∧ (clientExecute cfg cs stmt).1 = cs
    ∧ (clientExecute cfg cs stmt).2.1 = c := by
  have hfirst :
      getClient cfg initialClientState
        = ({ client := some { handle := 0, projectId := cfg.projectId,
                              location := cfg.bigquery.location },
             nextHandle := 1 },
           { handle := 0, projectId := cfg.projectId,
             location := cfg.bigquery.location }) := rfl
  have hrest := clientCalls_of_some cfg
    { handle := 0, projectId := cfg.projectId, location := cfg.bigquery.location } n
    { client := some { handle := 0, projectId := cfg.projectId,
                       location := cfg.bigquery.location },
      nextHandle := 1 } rfl
  refine ⟨?_, ?_, getClient_of_some cfg cs c h, ?_, ?_⟩
  · simp only [clientCalls, hfirst, hrest, List.replicate]
  · simp only [clientCalls, hfirst, hrest]
  · simp only [clientExecute, getClient_of_some cfg cs c h]
  · simp only [clientExecute, getClient_of_some cfg cs c h]

/-- Witness for C9: three calls from module load under the default
configuration, plus a call and an `executeQuery` on the resulting state. -/
theorem client_singleton_lazy_witness :
    (clientCalls defaultConfig initialClientState 3).2
      = List.replicate 3 (getClient defaultConfig initialClientState).2
    ∧ (clientCalls defaultConfig initialClientState 3).1.client
      = some (getClient defaultConfig initialClientState).2
    ∧ getClient defaultConfig (getClient defaultConfig initialClientState).1
      = ((getClient defaultConfig initialClientState).1,
         (getClient defaultConfig initialClientState).2)
    ∧ (clientExecute defaultConfig (getClient defaultConfig initialClientState).1
        ⟨"SELECT 1", [], none⟩).1
      = (getClient defaultConfig initialClientState).1
    ∧ (clientExecute defaultConfig (getClient defaultConfig initialClientState).1
        ⟨"SELECT 1", [], none⟩).2.1
      = (getClient defaultConfig initialClientState).2 :=
  client_singleton_lazy defaultConfig 2 (getClient defaultConfig initialClientState).1
    (getClient defaultConfig initialClientState).2 ⟨"SELECT 1", [], none⟩ rfl

/-- Claim C10: a `data` payload that is present but falsy (`false`, `0`, `""`,
`null`) is stored as SQL NULL and echoed back as `null` by `create` — the
`data` parameter of the INSERT is bound to null. -/
theorem create_falsy_data_null (cfg : Config) (db : DB) (input : CreateInput)
    (i now : String) (d : Json) (h1 : input.data = some d)
    (h2 : d.truthy = false) :
    (repoCreate cfg db input i now).res.data = none
    ∧ (repoCreate cfg db input i now).db
        = db ++ [{ id := i, name := input.name, value := normalizeValue input.value,
                   data := none, created_at := now, updated_at := now }]
    ∧ (createStatement cfg input i now).params.lookup "data" = some SqlParam.null := by
  have hs : createStoredData input = none := by
    simp [createStoredData, h1, h2]
  refine ⟨?_, ?_, ?_⟩
  · simp [repoCreate, h1, h2]
  · simp [repoCreate, hs]
  · simp [createStatement, hs, List.lookup]

/-- Witness for C10 at the payload `false`. -/
theorem create_falsy_data_null_witness :
    (repoCreate defaultConfig [] ⟨"x", JSNum.undef, some (Json.bool false)⟩
        "id-1" "t0").res.data = none
    ∧ (repoCreate defaultConfig [] ⟨"x", JSNum.undef, some (Json.bool false)⟩
        "id-1" "t0").db
        = [] ++ [{ id := "id-1", name := "x", value := normalizeValue JSNum.undef,
                   data := none, created_at := "t0", updated_at := "t0" }]
    ∧ (createStatement defaultConfig ⟨"x", JSNum.undef, some (Json.bool false)⟩
        "id-1" "t0").params.lookup "data" = some SqlParam.null :=
  create_falsy_data_null defaultConfig [] ⟨"x", JSNum.undef, some (Json.bool false)⟩
    "id-1" "t0" (Json.bool false) rfl rfl

/-- The row mapping shared by `findAll` and `findById` recovers exactly the
stored columns (a stored JSON `null` surfacing as JS `null`) whenever the
client returns the JSON column as encoded text, or the stored payload is not
a JSON string. -/
theorem mapClientRow_presentRow (rep : Bool) (r : Row)
    (h : rep = true ∨ r.data.all (fun j => !j.isString) = true) :
    mapClientRow (presentRow rep r)
      = Except.ok { id := r.id, name := r.name, value := r.value,
                    data := r.data.bind jsNullCollapse,
                    created_at := r.created_at, updated_at := r.updated_at } := by
  cases hd : r.data with
  | none => cases rep <;> simp [presentRow, mapClientRow, decodeDataCell, hd]
  | some j =>
      cases rep with
      | true =>
          simp [presentRow, mapClientRow, decodeDataCell, jsParseString, hd]
      | false =>
          have hs : j.isString = false := by
            rcases h with h | h
            · exact absurd h (by simp)
            · simpa [hd] using h
          cases j <;> simp_all [presentRow, mapClientRow, decodeDataCell,
            jsParseString, jsNullCollapse, Json.isString]

/-- Decoding a list of presented rows succeeds, and recovers the stored
columns, when no row carries a JSON string payload. -/
theorem decodeRows_presentRow (rep : Bool) (l : List Row)
    (h : ∀ r ∈ l, r.data.all (fun j => !j.isString) = true) :
    decodeRows (l.map (presentRow rep))
      = Except.ok (l.map (fun r =>
          ({ id := r.id, name := r.name, value := r.value,
             data := r.data.bind jsNullCollapse,
             created_at := r.created_at,
             updated_at := r.updated_at } : ItemRecord))) := by
  induction l with
  | nil => rfl
  | cons r t ih =>
      have hr := h r (List.mem_cons_self r t)
      have ht := ih (fun x hx => h x (List.mem_cons_of_mem r hx))
      simp only [List.map_cons, decodeRows,
        mapClientRow_presentRow rep r (Or.inr hr), ht]

/-- Claim C1, corrected: the round-trip holds for every valid create input
whose `data` payload is absent or truthy (a falsy payload is nulled, see the
counterexample) and — unless the client returns the JSON column as its
encoded text — is not a JSON string (a deserialized string payload is
re-parsed by the `typeof` decode): `findById` on the id of the created
record returns exactly the input's `name`, its `value` (null preserved for
an absent or null `value`), its `data` payload, and equal `created_at` /
`updated_at`. -/
theorem create_findById_roundtrip (cfg : Config) (rep : Bool) (db : DB)
    (input : CreateInput) (i now : String)
    (_hname : input.name ≠ "")
    (hfresh : ∀ r ∈ db, r.id ≠ i)
    (hdata : input.data.all Json.truthy = true)
    (hstr : rep = true ∨ input.data.all (fun j => !j.isString) = true) :
    (repoFindById cfg rep (repoCreate cfg db input i now).db i).res
      = Except.ok (some { id := i, name := input.name,
                          value := normalizeValue input.value,
                          data := input.data, created_at := now,
                          updated_at := now }) := by
  have hstored : createStoredData input = input.data := by
    cases hd : input.data with
    | none => simp [createStoredData, hd]
    | some j =>
        have ht : j.truthy = true := by simpa [hd, Option.all] using hdata
        simp [createStoredData, hd, ht]
  have hcollapse : input.data.bind jsNullCollapse = input.data := by
    cases hd : input.data with
    | none => rfl
    | some j =>
        have ht : j.truthy = true := by simpa [hd, Option.all] using hdata
        cases j <;> simp_all [jsNullCollapse, Json.truthy]
  have hdb : db.filter (fun r => r.id == i) = [] := by
    rw [List.filter_eq_nil_iff]
    intro r hr
    simpa using hfresh r hr
  have hside : rep = true ∨ (createStoredData input).all (fun j => !j.isString) = true := by
    rw [hstored]; exact hstr
  have hrow := mapClientRow_presentRow rep
    { id := i, name := input.name, value := normalizeValue input.value,
      data := createStoredData input, created_at := now, updated_at := now } hside
  rw [hstored] at hrow
  simp only [repoCreate, repoFindById, List.filter_append, hdb, List.nil_append,
    List.filter_cons]
  simp [hstored, hrow, hcollapse]

/-- Witness for C1 at a truthy string payload, with the client returning the
JSON column as its encoded text (the representation under which string
payloads survive). -/
theorem create_findById_roundtrip_witness :
    (repoFindById defaultConfig true
        (repoCreate defaultConfig []
          ⟨"a", JSNum.int 7, some (Json.str "hello")⟩ "id-1" "t0").db
        "id-1").res
      = Except.ok (some { id := "id-1", name := "a",
                          value := normalizeValue (JSNum.int 7),
                          data := some (Json.str "hello"),
                          created_at := "t0", updated_at := "t0" }) :=
  create_findById_roundtrip defaultConfig true []
    ⟨"a", JSNum.int 7, some (Json.str "hello")⟩ "id-1" "t0"
    (by decide) (by simp) rfl (Or.inl rfl)

/-- Counterexample to C1 as stated: for the valid input
`{ name: "a", data: false }` the created record's id looks up to a record
whose `data` is `null`, not the input's payload `false`. -/
theorem create_findById_roundtrip_cex :
    (repoFindById defaultConfig false
        (repoCreate defaultConfig [] ⟨"a", JSNum.undef, some (Json.bool false)⟩
          "id-1" "t0").db
        "id-1").res
      = Except.ok (some { id := "id-1", name := "a", value := none,
                          data := none, created_at := "t0", updated_at := "t0" })
    ∧ (none : Option Json) ≠ some (Json.bool false) := by
  refine ⟨rfl, ?_⟩
  intro h
  exact Option.noConfusion h

/-- Claim C2: the UPDATE's SET list holds exactly `updated_at` plus one clause
per patch field that is not `undefined`; the statement is executed (first in
the operation's trace, even for a zero-field patch, whose SET list is just
`updated_at`); rows with a different id are untouched; and the matching row
keeps every omitted field while `updated_at` is refreshed. -/
theorem update_partial_set_semantics (cfg : Config) (rep : Bool) (db : DB)
    (i now : String) (patch : UpdatePatch) :
    (buildUpdate i patch now).setClauses
      = ["updated_at = @updated_at"]
        ++ (match patch.name with | some _ => ["name = @name"] | none => [])
        ++ (match patch.value with
            | JSNum.undef => []
            | JSNum.null => ["value = @value"]
            | JSNum.int _ => ["value = @value"])
        ++ (match patch.data with
            | some _ => ["data = PARSE_JSON(@data)"] | none => [])
    ∧ (repoUpdate cfg rep db i patch now).trace.length = 2
    ∧ ((repoUpdate cfg rep db i patch now).trace.map Statement.query).head?
        = some (updateQuery cfg (buildUpdate i patch now).setClauses)
    ∧ (∀ row ∈ db, row.id ≠ i → row ∈ (repoUpdate cfg rep db i patch now).db)
    ∧ (∀ row ∈ db, row.id = i →
        { row with
          name := match patch.name with | some s => s | none => row.name
          value := match patch.value with
                   | JSNum.undef => row.value
                   | JSNum.null => none
                   | JSNum.int n => some n
          data := match patch.data with | some j => some j | none => row.data
          updated_at := now } ∈ (repoUpdate cfg rep db i patch now).db) := by
  refine ⟨?_, rfl, rfl, ?_, ?_⟩
  · obtain ⟨pn, pv, pd⟩ := patch
    cases pn <;> cases pv <;> cases pd <;> rfl
  · intro row hrow hne
    have hb : (row.id == i) = false := by simpa using hne
    have : applyUpdateRow i patch now row = row := by
      simp [applyUpdateRow, hb]
    have hmem := List.mem_map_of_mem (applyUpdateRow i patch now) hrow
    rw [this] at hmem
    simpa [repoUpdate, repoFindById] using hmem
  · intro row hrow heq
    have hb : (row.id == i) = true := by simpa using heq
    have : applyUpdateRow i patch now row
        = { row with
            name := match patch.name with | some s => s | none => row.name
            value := match patch.value with
                     | JSNum.undef => row.value
                     | JSNum.null => none
                     | JSNum.int n => some n
            data := match patch.data with | some j => some j | none => row.data
            updated_at := now } := by
      simp [applyUpdateRow, hb]
    have hmem := List.mem_map_of_mem (applyUpdateRow i patch now) hrow
    rw [this] at hmem
    simpa [repoUpdate, repoFindById] using hmem

/-- Witness for C2: a two-row table, an empty patch (zero updatable fields).
The SET list is just `updated_at`, the UPDATE still executes, the matching
row gets only `updated_at` refreshed and the other row is untouched. -/
theorem update_partial_set_semantics_witness :
    (buildUpdate "id-1" ⟨none, JSNum.undef, none⟩ "t1").setClauses
      = ["updated_at = @updated_at"] ++ [] ++ [] ++ []
    ∧ (repoUpdate defaultConfig false
        [{ id := "id-1", name := "a", value := some 1,
           data := some (Json.obj [("x", Json.num 1)]),
           created_at := "t0", updated_at := "t0" },
         { id := "id-2", name := "b", value := none, data := none,
           created_at := "t0", updated_at := "t0" }]
        "id-1" ⟨none, JSNum.undef, none⟩ "t1").trace.length = 2
    ∧ ((repoUpdate defaultConfig false
        [{ id := "id-1", name := "a", value := some 1,
           data := some (Json.obj [("x", Json.num 1)]),
           created_at := "t0", updated_at := "t0" },
         { id := "id-2", name := "b", value := none, data := none,
           created_at := "t0", updated_at := "t0" }]
        "id-1" ⟨none, JSNum.undef, none⟩ "t1").trace.map Statement.query).head?
      = some (updateQuery defaultConfig
          (buildUpdate "id-1" ⟨none, JSNum.undef, none⟩ "t1").setClauses)
    ∧ { id := "id-2", name := "b", value := none, data := (none : Option Json),
        created_at := "t0", updated_at := "t0" }
        ∈ (repoUpdate defaultConfig false
            [{ id := "id-1", name := "a", value := some 1,
               data := some (Json.obj [("x", Json.num 1)]),
               created_at := "t0", updated_at := "t0" },
             { id := "id-2", name := "b", value := none, data := none,
               created_at := "t0", updated_at := "t0" }]
            "id-1" ⟨none, JSNum.undef, none⟩ "t1").db
    ∧ { id := "id-1", name := "a", value := some 1,
        data := some (Json.obj [("x", Json.num 1)]),
        created_at := "t0", updated_at := "t1" }
        ∈ (repoUpdate defaultConfig false
            [{ id := "id-1", name := "a", value := some 1,
               data := some (Json.obj [("x", Json.num 1)]),
               created_at := "t0", updated_at := "t0" },
             { id := "id-2", name := "b", value := none, data := none,
               created_at := "t0", updated_at := "t0" }]
            "id-1" ⟨none, JSNum.undef, none⟩ "t1").db := by
  have h := update_partial_set_semantics defaultConfig false
    [{ id := "id-1", name := "a", value := some 1,
       data := some (Json.obj [("x", Json.num 1)]),
       created_at := "t0", updated_at := "t0" },
     { id := "id-2", name := "b", value := none, data := none,
       created_at := "t0", updated_at := "t0" }]
    "id-1" "t1" ⟨none, JSNum.undef, none⟩
  exact ⟨h.1, h.2.1, h.2.2.1,
    h.2.2.2.1 { id := "id-2", name := "b", value := none, data := none,
                created_at := "t0", updated_at := "t0" } (by simp) (by decide),
    h.2.2.2.2 { id := "id-1", name := "a", value := some 1,
                data := some (Json.obj [("x", Json.num 1)]),
                created_at := "t0", updated_at := "t0" } (by simp) rfl⟩

/-- Claim C5: when `findById` reports the id absent, the controller's get
answers 404; its update and delete also answer 404 and hand back the store
unchanged — not a single row is mutated. -/
theorem notfound_consistent (cfg : Config) (rep : Bool) (db : DB)
    (i now : String) (body : UpdatePatch)
    (h : (repoFindById cfg rep db i).res = Except.ok none) :
    (ctrlFindById cfg rep db i).2.status = 404
    ∧ (ctrlFindById cfg rep db i).2.success = false
    ∧ (ctrlFindById cfg rep db i).1 = db
    ∧ (ctrlUpdate cfg rep db i body now).2.status = 404
    ∧ (ctrlUpdate cfg rep db i body now).1 = db
    ∧ (ctrlDelete cfg rep db i).2.status = 404
    ∧ (ctrlDelete cfg rep db i).1 = db := by
  have hdb : (repoFindById cfg rep db i).db = db := rfl
  refine ⟨?_, ?_, ?_, ?_, ?_, ?_, ?_⟩ <;>
    simp [ctrlFindById, ctrlUpdate, ctrlDelete, h, hdb, sendResponse]

/-- Witness for C5 on an empty table and a fresh id. -/
theorem notfound_consistent_witness :
    (ctrlFindById defaultConfig false [] "missing-id").2.status = 404
    ∧ (ctrlFindById defaultConfig false [] "missing-id").2.success = false
    ∧ (ctrlFindById defaultConfig false [] "missing-id").1 = []
    ∧ (ctrlUpdate defaultConfig false [] "missing-id"
        ⟨some "n", JSNum.int 3, none⟩ "t1").2.status = 404
    ∧ (ctrlUpdate defaultConfig false [] "missing-id"
        ⟨some "n", JSNum.int 3, none⟩ "t1").1 = []
    ∧ (ctrlDelete defaultConfig false [] "missing-id").2.status = 404
    ∧ (ctrlDelete defaultConfig false [] "missing-id").1 = [] :=
  notfound_consistent defaultConfig false [] "missing-id" "t1"
    ⟨some "n", JSNum.int 3, none⟩ rfl

/-- Counterexample to C6 as stated: a deserialized JSON string payload is not
passed through unchanged — the `typeof` test sends it to `JSON.parse`.  The
payload `"abc"` (stored by `create({name:"a", data:"abc"})`) makes the
deserialized read throw, and the payload `"123"` is silently corrupted to
the number `123`. -/
theorem json_column_defensive_decoding_cex :
    (repoFindById defaultConfig false
        (repoCreate defaultConfig [] ⟨"a", JSNum.undef, some (Json.str "abc")⟩
          "id-1" "t0").db "id-1").res
      = Except.error "Unexpected token in JSON"
    ∧ (repoFindById defaultConfig false
        (repoCreate defaultConfig [] ⟨"b", JSNum.undef, some (Json.str "123")⟩
          "id-2" "t1").db "id-2").res
      = Except.ok (some { id := "id-2", name := "b", value := none,
                          data := some (Json.num 123),
                          created_at := "t1", updated_at := "t1" })
    ∧ some (Json.num 123) ≠ some (Json.str "123") := by
  refine ⟨rfl, rfl, ?_⟩
  intro h
  exact Json.noConfusion (Option.some.inj h)

/-- Claim C6, corrected: the decode dispatches on the JS runtime type — SQL
NULL and a deserialized non-string value pass through unchanged, and every
string is handed to `JSON.parse`, an encoded source text parsing back to the
stored value.  A deserialized JSON string payload, however, is itself a JS
string and is re-parsed (throwing or corrupting, see the counterexample), so
both client representations are tolerated without error — with identical
`findById` and `findAll` results — precisely for rows whose payload is not a
JSON string. -/
theorem json_column_defensive_decoding :
    decodeDataCell DataCell.null = Except.ok none
    ∧ (∀ j : Json, decodeDataCell (DataCell.value j) = Except.ok (some j))
    ∧ (∀ j : Json, decodeDataCell (DataCell.str (JSStringVal.enc j))
        = Except.ok (jsNullCollapse j))
    ∧ (∀ s : String, decodeDataCell (DataCell.str (JSStringVal.raw s)) = jsonParse s)
    ∧ (∀ (rep : Bool) (r : Row), r.data.all (fun j => !j.isString) = true →
        mapClientRow (presentRow rep r)
          = Except.ok { id := r.id, name := r.name, value := r.value,
                        data := r.data.bind jsNullCollapse,
                        created_at := r.created_at, updated_at := r.updated_at })
    ∧ (∀ (cfg : Config) (rep1 rep2 : Bool) (db : DB) (i : String),
        (∀ r ∈ db, r.data.all (fun j => !j.isString) = true) →
        (repoFindById cfg rep1 db i).res = (repoFindById cfg rep2 db i).res
          ∧ ∃ v, (repoFindById cfg rep1 db i).res = Except.ok v)
    ∧ (∀ (cfg : Config) (rep1 rep2 : Bool) (sortFn : DB → DB) (db : DB)
        (limit offset : Nat) (orderBy : String),
        (∀ r ∈ sortFn db, r.data.all (fun j => !j.isString) = true) →
        (repoFindAll cfg rep1 sortFn db limit offset orderBy).res
          = (repoFindAll cfg rep2 sortFn db limit offset orderBy).res
          ∧ ∃ v, (repoFindAll cfg rep1 sortFn db limit offset orderBy).res
              = Except.ok v) := by
  refine ⟨rfl, fun _ => rfl, fun _ => rfl, fun _ => rfl, ?_, ?_, ?_⟩
  · intro rep r h
    exact mapClientRow_presentRow rep r (Or.inr h)
  · intro cfg rep1 rep2 db i h
    have hsub : ∀ r ∈ (db.filter (fun r => r.id == i)).take 1,
        r.data.all (fun j => !j.isString) = true := by
      intro r hr
      exact h r (List.mem_of_mem_filter (List.take_subset _ _ hr))
    cases hrows : (db.filter (fun r => r.id == i)).take 1 with
    | nil =>
        constructor
        · simp [repoFindById, hrows]
        · exact ⟨none, by simp [repoFindById, hrows]⟩
    | cons r t =>
        have hr := hsub r (by simp [hrows])
        constructor
        · simp [repoFindById, hrows, mapClientRow_presentRow rep1 r (Or.inr hr),
            mapClientRow_presentRow rep2 r (Or.inr hr)]
        · have hv : (repoFindById cfg rep1 db i).res
              = Except.ok (some { id := r.id, name := r.name,
                                  value := r.value,
                                  data := r.data.bind jsNullCollapse,
                                  created_at := r.created_at,
                                  updated_at := r.updated_at }) := by
            simp [repoFindById, hrows, mapClientRow_presentRow rep1 r (Or.inr hr)]
          exact ⟨_, hv⟩
  · intro cfg rep1 rep2 sortFn db limit offset orderBy h
    have hsub : ∀ r ∈ ((sortFn db).drop offset).take limit,
        r.data.all (fun j => !j.isString) = true := by
      intro r hr
      exact h r (List.drop_subset _ _ (List.take_subset _ _ hr))
    constructor
    · exact (decodeRows_presentRow rep1 _ hsub).trans
        (decodeRows_presentRow rep2 _ hsub).symm
    · exact ⟨_, decodeRows_presentRow rep1 _ hsub⟩

/-- Witness for C6: a row with an object payload (whose nested string is
harmless) decodes identically and without error under both client
representations, for `findById` and `findAll` alike. -/
theorem json_column_defensive_decoding_witness :
    mapClientRow (presentRow false
        { id := "id-1", name := "a", value := some 1,
          data := some (Json.obj [("foo", Json.str "bar")]),
          created_at := "t0", updated_at := "t0" })
      = Except.ok { id := "id-1", name := "a", value := some 1,
                    data := some (Json.obj [("foo", Json.str "bar")]),
                    created_at := "t0", updated_at := "t0" }
    ∧ (repoFindById defaultConfig true
        [{ id := "id-1", name := "a", value := some 1,
           data := some (Json.obj [("foo", Json.str "bar")]),
           created_at := "t0", updated_at := "t0" }] "id-1").res
      = (repoFindById defaultConfig false
        [{ id := "id-1", name := "a", value := some 1,
           data := some (Json.obj [("foo", Json.str "bar")]),
           created_at := "t0", updated_at := "t0" }] "id-1").res
    ∧ (repoFindAll defaultConfig true id
        [{ id := "id-1", name := "a", value := some 1,
           data := some (Json.obj [("foo", Json.str "bar")]),
           created_at := "t0", updated_at := "t0" }] 10 0 "created_at DESC").res
      = (repoFindAll defaultConfig false id
        [{ id := "id-1", name := "a", value := some 1,
           data := some (Json.obj [("foo", Json.str "bar")]),
           created_at := "t0", updated_at := "t0" }] 10 0 "created_at DESC").res
    ∧ (repoFindById defaultConfig true
        [{ id := "id-1", name := "a", value := some 1,
           data := some (Json.obj [("foo", Json.str "bar")]),
           created_at := "t0", updated_at := "t0" }] "id-1").res
      = Except.ok (some { id := "id-1", name := "a", value := some 1,
                          data := some (Json.obj [("foo", Json.str "bar")]),
                          created_at := "t0", updated_at := "t0" }) := by
  have h := json_column_defensive_decoding
  refine ⟨h.2.2.2.2.1 false _ rfl, ?_, ?_, rfl⟩
  · exact (h.2.2.2.2.2.1 defaultConfig true false _ "id-1"
      (by intro r hr; simp at hr; subst hr; rfl)).1
  · exact (h.2.2.2.2.2.2 defaultConfig true false id _ 10 0 "created_at DESC"
      (by intro r hr; simp at hr; subst hr; rfl)).1

/-- Claim C7: the statements binding possibly-null parameters carry explicit
types — `create` always maps `value` to INT64 and `data` to STRING, `update`
does so exactly when the field is present in the patch, the `types` object is
always supplied on both statements, and `executeQuery` forwards a supplied
`types` map to the client untouched. -/
theorem nullable_params_supply_types (cfg : Config) (cs : ClientState)
    (input : CreateInput) (i now : String) (patch : UpdatePatch)
    (stmt : Statement) (ts : List (String × String)) :
    ((createStatement cfg input i now).types.getD []).lookup "value" = some "INT64"
    ∧ ((createStatement cfg input i now).types.getD []).lookup "data" = some "STRING"
    ∧ (createStatement cfg input i now).types.isSome = true
    ∧ (updateStatement cfg i patch now).types.isSome = true
    ∧ (patch.value ≠ JSNum.undef →
        ((updateStatement cfg i patch now).types.getD []).lookup "value"
          = some "INT64")
    ∧ (patch.data ≠ none →
        ((updateStatement cfg i patch now).types.getD []).lookup "data"
          = some "STRING")
    ∧ (stmt.types = some ts → (clientExecute cfg cs stmt).2.2.types = some ts) := by
  obtain ⟨pn, pv, pd⟩ := patch
  refine ⟨rfl, rfl, rfl, rfl, ?_, ?_, ?_⟩
  · intro hv
    cases pn <;> cases pv <;> cases pd <;> first
      | exact absurd rfl hv
      | rfl
  · intro hd
    cases pn <;> cases pv <;> cases pd <;> first
      | exact absurd rfl hd
      | rfl
  · intro hts
    cases hg : getClient cfg cs with
    | mk cs1 c => simp [clientExecute, hg, hts]

/-- Witness for C7: a patch whose `value` is an explicit null and whose
`data` is present, and the create statement forwarded through
`executeQuery`. -/
theorem nullable_params_supply_types_witness :
    ((createStatement defaultConfig ⟨"x", JSNum.null, none⟩ "id-1" "t0").types.getD
        []).lookup "value" = some "INT64"
    ∧ ((createStatement defaultConfig ⟨"x", JSNum.null, none⟩ "id-1" "t0").types.getD
        []).lookup "data" = some "STRING"
    ∧ (createStatement defaultConfig ⟨"x", JSNum.null, none⟩ "id-1" "t0").types.isSome
        = true
    ∧ (updateStatement defaultConfig "id-1"
        ⟨none, JSNum.null, some Json.null⟩ "t1").types.isSome = true
    ∧ ((updateStatement defaultConfig "id-1"
        ⟨none, JSNum.null, some Json.null⟩ "t1").types.getD []).lookup "value"
        = some "INT64"
    ∧ ((updateStatement defaultConfig "id-1"
        ⟨none, JSNum.null, some Json.null⟩ "t1").types.getD []).lookup "data"
        = some "STRING"
    ∧ (clientExecute defaultConfig initialClientState
        (createStatement defaultConfig ⟨"x", JSNum.null, none⟩ "id-1" "t0")).2.2.types
        = some createTypes := by
  have h := nullable_params_supply_types defaultConfig initialClientState
    ⟨"x", JSNum.null, none⟩ "id-1" "t0" ⟨none, JSNum.null, some Json.null⟩
    (createStatement defaultConfig ⟨"x", JSNum.null, none⟩ "id-1" "t0") createTypes
  exact ⟨h.1, h.2.1, h.2.2.1, h.2.2.2.1,
    h.2.2.2.2.1 (by simp), h.2.2.2.2.2.1 (by simp), h.2.2.2.2.2.2 rfl⟩
